import Mathlib

/-!
Verification of the SQL agent pipeline (client orchestrator and server tool
handlers) by a shallow embedding in Lean 4.

Strings from the Python source are modelled as `List Char`; Python dicts
produced by `json.loads` are modelled as association lists deduplicated on
insertion (later duplicate keys overwrite, keeping the original position,
as Python dicts do); fallible operations return `Option`/`Except`.

The opaque collaborators (the remote text-completion service, the SQLite
store, the data-dictionary file) are parameters of the embedded functions:
an LLM is a function from prompt to `Except error text`, the store is an
abstract state threaded through an engine function, and the dictionary read
is a three-way outcome (rows, file-not-found, other error).
-/

set_option autoImplicit false

namespace SqlAgent

/-- Convert a Lean string literal to the `List Char` representation used
throughout the embedding. -/
def strL (s : String) : List Char :=
  s.toList

/-- JSON-compatible Python values as produced by `json.loads` (and consumed
by `json.dumps`).  Numbers are modelled as integers only: the embedded
parser rejects fractional/exponent literals, a documented restriction. -/
inductive JsonVal where
  | null : JsonVal
  | bool (b : Bool) : JsonVal
  | num (n : Int) : JsonVal
  | str (s : List Char) : JsonVal
  | arr (xs : List JsonVal) : JsonVal
  | obj (kvs : List (List Char × JsonVal)) : JsonVal

/-- Python dict assignment `d[k] = v`: overwrite in place if the key exists
(keeping its original position), otherwise append. -/
def pyDictInsert (d : List (List Char × JsonVal)) (k : List Char) (v : JsonVal) :
    List (List Char × JsonVal) :=
  if d.any (fun p => p.1 == k) then
    d.map (fun p => if p.1 == k then (k, v) else p)
  else
    d ++ [(k, v)]

/-- Python `d.get(k)`: `some` of the stored value, `none` when absent. -/
def pyLookup (d : List (List Char × JsonVal)) (k : List Char) : Option JsonVal :=
  match d with
  | [] => none
  | p :: rest => if p.1 == k then some p.2 else pyLookup rest k

/-- Python truthiness of an optional JSON value (`None`/missing, `False`,
`0`, `""`, `[]`, and the empty dict are falsy). -/
def pyTruthy : Option JsonVal → Bool
  | none => false
  | some JsonVal.null => false
  | some (JsonVal.bool b) => b
  | some (JsonVal.num n) => n != 0
  | some (JsonVal.str s) => !s.isEmpty
  | some (JsonVal.arr l) => !l.isEmpty
  | some (JsonVal.obj l) => !l.isEmpty

/-- Python `dict(zip(cols, row))`: zip truncates to the shorter list, then
the pairs are inserted left to right. -/
def pyZipDict (cols : List (List Char)) (row : List JsonVal) :
    List (List Char × JsonVal) :=
  (List.zip cols row).foldl (fun d p => pyDictInsert d p.1 p.2) []

/-- Decimal rendering of an integer, as Python `str` does. -/
def intRepr (n : Int) : List Char :=
  if n < 0 then '-' :: Nat.toDigits 10 n.natAbs else Nat.toDigits 10 n.toNat

mutual

/-- Python `repr` of a JSON-compatible value (used by `str` for containers).
String escaping inside `repr` is not modelled beyond quoting. -/
def pyRepr : JsonVal → List Char
  | JsonVal.null => strL ("None")
  | JsonVal.bool true => strL ("True")
  | JsonVal.bool false => strL ("False")
  | JsonVal.num n => intRepr n
  | JsonVal.str s => '\x27' :: s ++ ['\x27']
  | JsonVal.arr xs => '[' :: pyReprElems xs ++ [']']
  | JsonVal.obj kvs => '\x7b' :: pyReprMembers kvs ++ ['\x7d']

/-- Comma-separated `repr`s of list elements. -/
def pyReprElems : List JsonVal → List Char
  | [] => []
  | [x] => pyRepr x
  | x :: y :: xs => pyRepr x ++ strL (", ") ++ pyReprElems (y :: xs)

/-- Comma-separated `repr`s of dict members. -/
def pyReprMembers : List (List Char × JsonVal) → List Char
  | [] => []
  | [(k, v)] => '\x27' :: k ++ '\x27' :: ':' :: ' ' :: pyRepr v
  | (k, v) :: p :: xs =>
    '\x27' :: k ++ '\x27' :: ':' :: ' ' :: pyRepr v ++ strL (", ") ++ pyReprMembers (p :: xs)

end

/-- Python `str` of a JSON-compatible value, as interpolated by f-strings:
a string renders as itself, everything else via `repr`. -/
def pyStr (v : JsonVal) : List Char :=
  match v with
  | JsonVal.str s => s
  | v => pyRepr v

/-- Escape one character for a JSON string literal.  Control characters and
non-ASCII escapes are not modelled. -/
def jsonEscChar (c : Char) : List Char :=
  if c = '"' then ['\\', '"']
  else if c = '\\' then ['\\', '\\']
  else [c]

/-- Escape a whole string for a JSON string literal. -/
def jsonEscStr (s : List Char) : List Char :=
  s.foldr (fun c acc => jsonEscChar c ++ acc) []

mutual

/-- `json.dumps` with the default separators.  The `indent` option used in
the source only changes whitespace inside the dumped text and is not
modelled. -/
def jsonDumps : JsonVal → List Char
  | JsonVal.null => strL ("null")
  | JsonVal.bool true => strL ("true")
  | JsonVal.bool false => strL ("false")
  | JsonVal.num n => intRepr n
  | JsonVal.str s => '"' :: jsonEscStr s ++ ['"']
  | JsonVal.arr xs => '[' :: jsonDumpsElems xs ++ [']']
  | JsonVal.obj kvs => '\x7b' :: jsonDumpsMembers kvs ++ ['\x7d']

/-- Serialize array elements, separated by `", "`. -/
def jsonDumpsElems : List JsonVal → List Char
  | [] => []
  | [x] => jsonDumps x
  | x :: y :: xs => jsonDumps x ++ strL (", ") ++ jsonDumpsElems (y :: xs)

/-- Serialize object members, separated by `", "`, keys rendered as JSON
strings followed by `": "`. -/
def jsonDumpsMembers : List (List Char × JsonVal) → List Char
  | [] => []
  | [(k, v)] => '"' :: jsonEscStr k ++ '"' :: ':' :: ' ' :: jsonDumps v
  | (k, v) :: p :: xs =>
    '"' :: jsonEscStr k ++ '"' :: ':' :: ' ' :: jsonDumps v ++ strL (", ")
      ++ jsonDumpsMembers (p :: xs)

end

/-- Whether a character is JSON whitespace. -/
def isJsonWs (c : Char) : Bool :=
  c ∈ [' ', '\t', '\n', '\r']

/-- Skip JSON whitespace. -/
def skipWs (s : List Char) : List Char :=
  match s with
  | [] => []
  | c :: rest => if isJsonWs c then skipWs rest else s

/-- The escape table for JSON string literals: each escapable character
paired with its decoding.  `\uXXXX` escapes are not modelled (the parser
fails on them). -/
def escTable : List (Char × Char) :=
  [('"', '"'), ('\\', '\\'), ('/', '/'), ('n', '\n'), ('t', '\t'),
    ('r', '\r'), ('b', Char.ofNat 8), ('f', Char.ofNat 12)]

/-- Decode a character following a backslash inside a JSON string literal. -/
def escDecode (c : Char) : Option Char :=
  (escTable.find? (fun p => p.1 == c)).map Prod.snd

/-- Parse the body of a JSON string literal (after the opening quote),
returning the decoded characters and the remaining input. -/
def parseStringBody : List Char → Option (List Char × List Char)
  | [] => none
  | '"' :: rest => some ([], rest)
  | '\\' :: c :: rest =>
    match escDecode c with
    | some ch => (parseStringBody rest).map (fun p => (ch :: p.1, p.2))
    | none => none
  | ['\\'] => none
  | c :: rest => (parseStringBody rest).map (fun p => (c :: p.1, p.2))

/-- Numeric value of a decimal digit character. -/
def digitVal (c : Char) : Nat :=
  c.toNat - '0'.toNat

/-- Split off the leading run of decimal digits. -/
def takeDigits (s : List Char) : List Char × List Char :=
  s.span Char.isDigit

/-- Decimal digits to a natural number. -/
def digitsToNat (ds : List Char) : Nat :=
  ds.foldl (fun a c => a * 10 + digitVal c) 0

/-- Parse a natural-number token; fails on an empty digit run and on
fractional/exponent continuations (float literals are not modelled). -/
def parseNatTok (s : List Char) : Option (Nat × List Char) :=
  let p := takeDigits s
  if p.1 = [] then none
  else
    match p.2 with
    | c :: _ => if c = '.' ∨ c = 'e' ∨ c = 'E' then none else some (digitsToNat p.1, p.2)
    | [] => some (digitsToNat p.1, p.2)

/-- Parse an integer token with an optional leading minus sign. -/
def parseIntTok : List Char → Option (Int × List Char)
  | '-' :: rest => (parseNatTok rest).map (fun p => (-(p.1 : Int), p.2))
  | s => (parseNatTok s).map (fun p => ((p.1 : Int), p.2))

mutual

/-- Parse one JSON value, fuel-bounded recursive descent. -/
def parseVal : Nat → List Char → Option (JsonVal × List Char)
  | 0, _ => none
  | Nat.succ fuel, s =>
    match skipWs s with
    | '\x7b' :: rest => parseObjTail fuel rest
    | '[' :: rest => parseArrTail fuel rest
    | '"' :: rest => (parseStringBody rest).map (fun p => (JsonVal.str p.1, p.2))
    | 't' :: 'r' :: 'u' :: 'e' :: rest => some (JsonVal.bool true, rest)
    | 'f' :: 'a' :: 'l' :: 's' :: 'e' :: rest => some (JsonVal.bool false, rest)
    | 'n' :: 'u' :: 'l' :: 'l' :: rest => some (JsonVal.null, rest)
    | s2 => (parseIntTok s2).map (fun p => (JsonVal.num p.1, p.2))

/-- Parse the remainder of an object after the opening brace. -/
def parseObjTail : Nat → List Char → Option (JsonVal × List Char)
  | 0, _ => none
  | Nat.succ fuel, s =>
    match skipWs s with
    | '\x7d' :: rest => some (JsonVal.obj [], rest)
    | s2 => parseMembers fuel s2 []

/-- Parse one or more `"key": value` members; duplicate keys overwrite as
in Python dict construction. -/
def parseMembers : Nat → List Char → List (List Char × JsonVal) →
    Option (JsonVal × List Char)
  | 0, _, _ => none
  | Nat.succ fuel, s, acc =>
    match skipWs s with
    | '"' :: rest =>
      match parseStringBody rest with
      | none => none
      | some (key, r1) =>
        match skipWs r1 with
        | ':' :: r2 =>
          match parseVal fuel r2 with
          | none => none
          | some (v, r3) =>
            match skipWs r3 with
            | ',' :: r4 => parseMembers fuel r4 (pyDictInsert acc key v)
            | '\x7d' :: r4 => some (JsonVal.obj (pyDictInsert acc key v), r4)
            | _ => none
        | _ => none
    | _ => none

/-- Parse the remainder of an array after the opening bracket. -/
def parseArrTail : Nat → List Char → Option (JsonVal × List Char)
  | 0, _ => none
  | Nat.succ fuel, s =>
    match skipWs s with
    | ']' :: rest => some (JsonVal.arr [], rest)
    | s2 => parseElems fuel s2 []

/-- Parse one or more array elements. -/
def parseElems : Nat → List Char → List JsonVal → Option (JsonVal × List Char)
  | 0, _, _ => none
  | Nat.succ fuel, s, acc =>
    match parseVal fuel s with
    | none => none
    | some (v, r1) =>
      match skipWs r1 with
      | ',' :: r2 => parseElems fuel r2 (acc ++ [v])
      | ']' :: r2 => some (JsonVal.arr (acc ++ [v]), r2)
      | _ => none

end

/-- `json.loads`: parse a complete JSON document, requiring only whitespace
after the value.  Total: failures are `none` (the Python exception is caught
by every caller in the source). -/
def jsonLoads (s : List Char) : Option JsonVal :=
  match parseVal (2 * s.length + 4) s with
  | some (v, rest) => if skipWs rest = [] then some v else none
  | none => none

/-- Clamp one Python slice endpoint: negative indices count from the end
(saturating at 0), nonnegative ones are capped at the length. -/
def pySliceIdx (len : Nat) (i : Int) : Nat :=
  if i < 0 then ((len : Int) + i).toNat else min i.toNat len

/-- Python slice `s[a : b]` with full negative-index semantics. -/
def pySlice (s : List Char) (a b : Int) : List Char :=
  (s.take (pySliceIdx s.length b)).drop (pySliceIdx s.length a)

/-- Index of the first occurrence of a character, if any. -/
def firstIdxOf (s : List Char) (c : Char) : Option Nat :=
  match s with
  | [] => none
  | x :: rest => if x = c then some 0 else (firstIdxOf rest c).map (· + 1)

/-- Index of the last occurrence of a character, if any. -/
def lastIdxOf (s : List Char) (c : Char) : Option Nat :=
  match s with
  | [] => none
  | x :: rest =>
    match lastIdxOf rest c with
    | some i => some (i + 1)
    | none => if x = c then some 0 else none

/-- Python `str.find`: first index or `-1`. -/
def pyFind (s : List Char) (c : Char) : Int :=
  match firstIdxOf s c with
  | some i => (i : Int)
  | none => -1

/-- Python `str.rfind`: last index or `-1`. -/
def pyRfind (s : List Char) (c : Char) : Int :=
  match lastIdxOf s c with
  | some i => (i : Int)
  | none => -1

/-- The brace-locating step shared by `run_sqlite_query` and
`ner_generator_dynamic`: `s[s.find(lbrace) : s.rfind(rbrace) + 1]`. -/
def extractBraced (s : List Char) : List Char :=
  pySlice s (pyFind s '\x7b') (pyRfind s '\x7d' + 1)

/-- Result of one successful `cursor.execute` / `fetchall`: the column
names from `cursor.description` and the fetched rows, values in column
order. -/
structure ExecResult where
  columns : List (List Char)
  rows : List (List JsonVal)

/-- The SQLite store as a black box: given the current store state and one
SQL statement, either a result together with the successor state, or an
exception message (the store state is unchanged on failure). -/
def SqlEngine (σ : Type) : Type :=
  σ → List Char → Except (List Char) (ExecResult × σ)

/-- The dict returned by `run_sqlite_query`: an optional `"error"` entry
(`none` models the key being absent, as in the success dict) and the
`"data"` list of rows, each a column-name → value dict. -/
structure ToolOutcome where
  error : Option (List Char)
  data : List (List (List Char × JsonVal))

/-- Stand-in text for the `json.JSONDecodeError` message interpolated into
the `except` branch; the exact exception text is environment-specific. -/
def jsonDecodeErrMsg : List Char :=
  strL ("Expecting value (JSON decode error)")

/-- Stand-in text for the `AttributeError` raised by `data.get(...)` when
the parsed JSON value is not a dict. -/
def getAttrErrMsg : List Char :=
  strL ("parsed JSON value has no attribute get")

/-- Stand-in text for the `TypeError` raised by `cursor.execute` when the
`sql_query` value is not a string. -/
def execTypeErrMsg : List Char :=
  strL ("execute argument is not a string")

/-- The part of `run_sqlite_query` after `json.loads`: the error-marker and
missing-query checks, then the single `cursor.execute`/`fetchall` round and
row formatting, every failure caught into an error dict.  Besides the
returned dict it reports the list of statements passed to the cursor and
the final store state. -/
def executeParsedSpec {σ : Type} (engine : SqlEngine σ) (store : σ)
    (parsed : Option JsonVal) : ToolOutcome × List (List Char) × σ :=
  match parsed with
  | none => (⟨some (strL ("Database query failed: ") ++ jsonDecodeErrMsg), []⟩, [], store)
  | some (JsonVal.obj kvs) =>
    if pyTruthy (pyLookup kvs (strL ("error"))) then
      (⟨some (strL ("Cannot execute due to previous error: ")
          ++ pyStr ((pyLookup kvs (strL ("error"))).getD JsonVal.null)), []⟩, [], store)
    else if pyTruthy (pyLookup kvs (strL ("sql_query"))) = false then
      (⟨some (strL ("No SQL query provided.")), []⟩, [], store)
    else
      match pyLookup kvs (strL ("sql_query")) with
      | some (JsonVal.str q) =>
        match engine store q with
        | Except.ok (res, store2) =>
          (⟨none, res.rows.map (fun row => pyZipDict res.columns row)⟩, [q], store2)
        | Except.error e =>
          (⟨some (strL ("Database query failed: ") ++ e), []⟩, [q], store)
      | _ => (⟨some (strL ("Database query failed: ") ++ execTypeErrMsg), []⟩, [], store)
  | some _ => (⟨some (strL ("Database query failed: ") ++ getAttrErrMsg), []⟩, [], store)

/-- Tool 3, `run_sqlite_query(sql_json)`: locate the braced substring,
`json.loads` it, then run `executeParsedSpec`.  Total over the input
string: every exception in the source is caught by its `try`/`except` and
converted into an error dict. -/
def run_sqlite_query {σ : Type} (engine : SqlEngine σ) (store : σ)
    (sql_json : List Char) : ToolOutcome × List (List Char) × σ :=
  executeParsedSpec engine store (jsonLoads (extractBraced sql_json))

/-- One row of the data-dictionary CSV. -/
structure DictRow where
  columnHeader : List Char
  businessHeader : List Char
  definition : List Char
  exampleText : List Char

/-- Outcome of `pd.read_csv` on the data-dictionary path. -/
inductive DictRead where
  | ok (rows : List DictRow) : DictRead
  | fileNotFound : DictRead
  | otherError (msg : List Char) : DictRead

/-- The notice returned when the data-dictionary file is absent. -/
def dictNotFoundMsg : List Char :=
  strL ("Data dictionary file not found. I will proceed without it.")

/-- One formatted line of the data-dictionary description. -/
def fmtDictRow (r : DictRow) : List Char :=
  strL ("- Column \x27") ++ r.columnHeader ++ strL ("\x27 (also called \x27")
    ++ r.businessHeader ++ strL ("\x27): ") ++ r.definition
    ++ strL (". Example: ") ++ r.exampleText ++ strL ("\n")

/-- `get_data_dictionary_description`: format the CSV rows, or degrade to a
notice when the file is missing, or report any other read error. -/
def get_data_dictionary_description (read : DictRead) : List Char :=
  match read with
  | DictRead.ok rows =>
    strL ("This is the data dictionary. It explains the columns in the database tables:\n")
      ++ (rows.map fmtDictRow).flatten
  | DictRead.fileNotFound => dictNotFoundMsg
  | DictRead.otherError e => strL ("Error reading data dictionary: ") ++ e

/-- The entity-extraction prompt built by `ner_generator_dynamic`. -/
def mkNerPrompt (dataDictionary question : List Char) : List Char :=
  strL ("\n    You are a data analyst. Your job is to extract key entities from a user\x27s question.\n    Use the provided data dictionary to understand the columns. Your output MUST be a single, raw JSON object.\n\n    Data Dictionary:\n    ")
    ++ dataDictionary
    ++ strL ("\n\n    User Question: \"") ++ question
    ++ strL ("\"\n\n    Extract the necessary components to answer the question. Your output MUST be a single JSON object with keys: \"table\", \"columns_to_select\", and \"filters\".\n    ")

/-- An LLM round trip: prompt text in, either the completion text or an
exception message. -/
def Llm : Type :=
  List Char → Except (List Char) (List Char)

/-- Tool 1, `ner_generator_dynamic(question)`: build the prompt from the
data-dictionary description, call the LLM, locate the braced substring of
the completion and `json.loads` it; any exception (LLM failure or parse
failure) is caught into an error dict. -/
def ner_generator_dynamic (read : DictRead) (llm : Llm) (question : List Char) :
    JsonVal :=
  match llm (mkNerPrompt (get_data_dictionary_description read) question) with
  | Except.error e =>
    JsonVal.obj [(strL ("error"), JsonVal.str (strL ("Error in ner_generator_dynamic: ") ++ e))]
  | Except.ok text =>
    match jsonLoads (extractBraced text) with
    | some v => v
    | none =>
      JsonVal.obj [(strL ("error"),
        JsonVal.str (strL ("Error in ner_generator_dynamic: ") ++ jsonDecodeErrMsg))]

/-- The query-builder prompt built by `create_sql`. -/
def mkCreateSqlPrompt (question nerJson : List Char) : List Char :=
  strL ("\n    You are an expert SQLite developer. Create a single, valid SQLite query to answer the user\x27s question.\n    Use the extracted JSON entities as a guide. Your output MUST be a single JSON object with one key: \"sql_query\".\n\n    Original Question: \"")
    ++ question
    ++ strL ("\"\n    Extracted Entities: ") ++ nerJson
    ++ strL ("\n    ")

/-- Tool 2, `create_sql(question, ner_dict)`: serialize the entity dict
into the prompt, call the LLM and return its raw completion text; only when
the LLM call itself fails is a serialized `"error"` object returned. -/
def create_sql (llm : Llm) (question : List Char)
    (ner_dict : List (List Char × JsonVal)) : List Char :=
  match llm (mkCreateSqlPrompt question (jsonDumps (JsonVal.obj ner_dict))) with
  | Except.ok text => text
  | Except.error e =>
    jsonDumps (JsonVal.obj [(strL ("error"),
      JsonVal.str (strL ("LLM Error in create_sql: ") ++ e))])

/-- The client's view of the connected session: one function per remote
tool, each returning the already-extracted payload (`content[0].data` or
`content[0].text`) or an exception message covering both transport errors
and payload-extraction errors. -/
structure PipelineSession where
  callNer : List Char → Except (List Char) JsonVal
  callCreateSql : List Char → JsonVal → Except (List Char) (List Char)
  callRunQuery : List Char → Except (List Char) JsonVal
  callFinalAnswer : List Char → JsonVal → Except (List Char) (List Char)

/-- One tool invocation issued by `ask`, with the arguments it carried. -/
inductive StepCall where
  | nerStep (question : List Char) : StepCall
  | createSqlStep (question : List Char) (nerDict : JsonVal) : StepCall
  | runQueryStep (sqlJson : List Char) : StepCall
  | finalAnswerStep (question : List Char) (dbDict : JsonVal) : StepCall

/-- The `question` argument carried by a step invocation, when it has one
(the query-execution step carries none). -/
def questionOf : StepCall → Option (List Char)
  | StepCall.nerStep q => some q
  | StepCall.createSqlStep q _ => some q
  | StepCall.runQueryStep _ => none
  | StepCall.finalAnswerStep q _ => some q

/-- The string returned by `ask` when any step raises. -/
def criticalMsg (e : List Char) : List Char :=
  strL ("A critical error occurred in the pipeline: ") ++ e

/-- `SQLAgentClient.ask(question)`: the fixed four-step pipeline.  Returns
the final answer string (or error string) together with the ordered list of
tool invocations actually issued, the last one being the failing step when
the `except` branch is taken. -/
def ask (session : Option PipelineSession) (question : List Char) :
    List Char × List StepCall :=
  match session with
  | none => (strL ("Error: Not connected to the server."), [])
  | some s =>
    match s.callNer question with
    | Except.error e => (criticalMsg e, [StepCall.nerStep question])
    | Except.ok nerDict =>
      match s.callCreateSql question nerDict with
      | Except.error e =>
        (criticalMsg e, [StepCall.nerStep question, StepCall.createSqlStep question nerDict])
      | Except.ok sqlJson =>
        match s.callRunQuery sqlJson with
        | Except.error e =>
          (criticalMsg e,
            [StepCall.nerStep question, StepCall.createSqlStep question nerDict,
              StepCall.runQueryStep sqlJson])
        | Except.ok dbDict =>
          match s.callFinalAnswer question dbDict with
          | Except.error e =>
            (criticalMsg e,
              [StepCall.nerStep question, StepCall.createSqlStep question nerDict,
                StepCall.runQueryStep sqlJson, StepCall.finalAnswerStep question dbDict])
          | Except.ok answer =>
            (answer,
              [StepCall.nerStep question, StepCall.createSqlStep question nerDict,
                StepCall.runQueryStep sqlJson, StepCall.finalAnswerStep question dbDict])

/-! ## Helper lemmas -/

theorem ne_nil_append_of_ne_nil {xs : List Char} (ys : List Char) (h : xs ≠ []) :
    xs ++ ys ≠ [] := by
  cases xs with
  | nil => exact absurd rfl h
  | cons a t => simp

theorem firstIdxOf_bound {s : List Char} {c : Char} {i : Nat}
    (h : firstIdxOf s c = some i) : i < s.length ∧ s.get? i = some c := by
  induction s generalizing i with
  | nil => simp [firstIdxOf] at h
  | cons x rest ih =>
    by_cases hx : x = c
    · simp [firstIdxOf, hx] at h
      subst h
      exact ⟨Nat.succ_pos _, by simp [hx]⟩
    · simp [firstIdxOf, hx] at h
      rcases h with ⟨a, ha, rfl⟩
      rcases ih ha with ⟨hb1, hb2⟩
      exact ⟨Nat.succ_lt_succ hb1, by simpa using hb2⟩

theorem lastIdxOf_bound {s : List Char} {c : Char} {j : Nat}
    (h : lastIdxOf s c = some j) : j < s.length ∧ s.get? j = some c := by
  induction s generalizing j with
  | nil => simp [lastIdxOf] at h
  | cons x rest ih =>
    rcases hr : lastIdxOf rest c with _ | a
    · rw [lastIdxOf, hr] at h
      by_cases hx : x = c
      · rw [if_pos hx] at h
        cases h
        exact ⟨Nat.succ_pos _, by simp [hx]⟩
      · rw [if_neg hx] at h
        cases h
    · rw [lastIdxOf, hr] at h
      cases h
      rcases ih hr with ⟨hb1, hb2⟩
      exact ⟨Nat.succ_lt_succ hb1, by simpa using hb2⟩

theorem lastIdxOf_of_last {t : List Char} {c : Char}
    (hne : t ≠ []) (hl : t.get? (t.length - 1) = some c) :
    lastIdxOf t c = some (t.length - 1) := by
  induction t with
  | nil => exact absurd rfl hne
  | cons x rest ih =>
    cases rest with
    | nil =>
      simp at hl
      simp [lastIdxOf, hl]
    | cons y rs =>
      have hr : (y :: rs).get? ((y :: rs).length - 1) = some c := by
        simpa using hl
      have hrec := ih (by simp) hr
      have hstep : lastIdxOf (x :: y :: rs) c =
          match lastIdxOf (y :: rs) c with
          | some i => some (i + 1)
          | none => if x = c then some 0 else none := rfl
      rw [hstep, hrec]
      simp

theorem pyFind_eq {s : List Char} {c : Char} {i : Nat}
    (h : firstIdxOf s c = some i) : pyFind s c = (i : Int) := by
  unfold pyFind
  rw [h]

theorem pyRfind_eq {s : List Char} {c : Char} {j : Nat}
    (h : lastIdxOf s c = some j) : pyRfind s c = (j : Int) := by
  unfold pyRfind
  rw [h]

theorem extractBraced_eq {s : List Char} {i j : Nat}
    (h1 : firstIdxOf s '\x7b' = some i) (h2 : lastIdxOf s '\x7d' = some j) :
    extractBraced s = (s.take (j + 1)).drop i := by
  have hi := (firstIdxOf_bound h1).1
  have hj := (lastIdxOf_bound h2).1
  unfold extractBraced
  rw [pyFind_eq h1, pyRfind_eq h2]
  unfold pySlice pySliceIdx
  rw [if_neg (by omega), if_neg (by omega)]
  have e1 : ((j : Int) + 1).toNat = j + 1 := by omega
  have e2 : ((i : Int)).toNat = i := by omega
  rw [e1, e2, Nat.min_eq_left hj, Nat.min_eq_left (by omega)]

theorem extractBraced_self {t : List Char}
    (hh : t.get? 0 = some '\x7b') (hl : t.get? (t.length - 1) = some '\x7d') :
    extractBraced t = t := by
  have hne : t ≠ [] := by
    cases t with
    | nil => simp at hh
    | cons a r => simp
  have h1 : firstIdxOf t '\x7b' = some 0 := by
    cases t with
    | nil => simp at hh
    | cons a r =>
      have : a = '\x7b' := by simpa using hh
      simp [firstIdxOf, this]
  have h2 : lastIdxOf t '\x7d' = some (t.length - 1) := lastIdxOf_of_last hne hl
  rw [extractBraced_eq h1 h2]
  have hp : t.length - 1 + 1 = t.length := Nat.succ_pred_eq_of_pos (List.length_pos.mpr hne)
  rw [hp, List.take_length, List.drop_zero]

theorem executeParsedSpec_structured {σ : Type} (engine : SqlEngine σ) (store : σ)
    (parsed : Option JsonVal) :
    (executeParsedSpec engine store parsed).1.error = none ∨
      ∃ e, (executeParsedSpec engine store parsed).1.error = some e ∧ e ≠ [] ∧
        (executeParsedSpec engine store parsed).1.data = [] := by
  unfold executeParsedSpec
  split
  · exact Or.inr ⟨_, rfl, ne_nil_append_of_ne_nil _ (by decide), rfl⟩
  · split
    · exact Or.inr ⟨_, rfl, ne_nil_append_of_ne_nil _ (by decide), rfl⟩
    · split
      · exact Or.inr ⟨_, rfl, by decide, rfl⟩
      · split
        · split
          · exact Or.inl rfl
          · exact Or.inr ⟨_, rfl, ne_nil_append_of_ne_nil _ (by decide), rfl⟩
        · exact Or.inr ⟨_, rfl, ne_nil_append_of_ne_nil _ (by decide), rfl⟩
  · exact Or.inr ⟨_, rfl, ne_nil_append_of_ne_nil _ (by decide), rfl⟩

theorem executeParsedSpec_obj {σ : Type} (engine : SqlEngine σ) (store : σ)
    (kvs : List (List Char × JsonVal)) :
    executeParsedSpec engine store (some (JsonVal.obj kvs)) =
      (if pyTruthy (pyLookup kvs (strL ("error"))) = true then
        (⟨some (strL ("Cannot execute due to previous error: ")
            ++ pyStr ((pyLookup kvs (strL ("error"))).getD JsonVal.null)), []⟩, [], store)
      else if pyTruthy (pyLookup kvs (strL ("sql_query"))) = false then
        (⟨some (strL ("No SQL query provided.")), []⟩, [], store)
      else
        match pyLookup kvs (strL ("sql_query")) with
        | some (JsonVal.str q) =>
          match engine store q with
          | Except.ok (res, store2) =>
            (⟨none, res.rows.map (fun row => pyZipDict res.columns row)⟩, [q], store2)
          | Except.error e =>
            (⟨some (strL ("Database query failed: ") ++ e), []⟩, [q], store)
        | _ => (⟨some (strL ("Database query failed: ") ++ execTypeErrMsg), []⟩, [], store)) :=
  rfl

/-! ## Claim theorems -/

/-- C1 (amended): if the JSON object extracted from the input carries an
`"error"` entry with a truthy value, or carries no truthy `"sql_query"`
value (the key is absent or its value is falsy), then `run_sqlite_query`
passes no statement to the cursor, leaves the store untouched, and returns
a dict with a non-empty `"error"` string and `"data"` equal to the empty
list. -/
theorem run_sqlite_query_error_marker {σ : Type} (engine : SqlEngine σ) (store : σ)
    (s : List Char) (kvs : List (List Char × JsonVal))
    (hparse : jsonLoads (extractBraced s) = some (JsonVal.obj kvs))
    (hcond : pyTruthy (pyLookup kvs (strL ("error"))) = true ∨
      pyTruthy (pyLookup kvs (strL ("sql_query"))) = false) :
    ∃ e, run_sqlite_query engine store s = (⟨some e, []⟩, [], store) ∧ e ≠ [] := by
  unfold run_sqlite_query
  rw [hparse, executeParsedSpec_obj]
  by_cases h1 : pyTruthy (pyLookup kvs (strL ("error"))) = true
  · rw [if_pos h1]
    exact ⟨_, rfl, ne_nil_append_of_ne_nil _ (by decide)⟩
  · have h2 : pyTruthy (pyLookup kvs (strL ("sql_query"))) = false := hcond.resolve_left h1
    rw [if_neg h1, if_pos h2]
    exact ⟨_, rfl, by decide⟩

/-- Engine used by the C1 concrete instances: a store-preserving engine
answering every statement with one row. -/
def c1Engine : SqlEngine Nat :=
  fun store _q => Except.ok (⟨[strL ("c")], [[JsonVal.num 1]]⟩, store)

/-- Query spec whose JSON object carries an `"error"` key with the falsy
value `0` next to a well-formed `"sql_query"`. -/
def c1Input : List Char :=
  strL ("\x7b\"error\": 0, \"sql_query\": \"SELECT 1\"\x7d")

/-- C1 counterexample: the extracted JSON object of `c1Input` carries an
`"error"` key, yet `run_sqlite_query` executes the statement (the cursor
log is non-empty) and returns a result with no `"error"` entry at all,
contradicting the claim that any input carrying an `"error"` key is
rejected without execution. -/
theorem run_sqlite_query_error_key_cex :
    jsonLoads (extractBraced c1Input) =
      some (JsonVal.obj [(strL ("error"), JsonVal.num 0),
        (strL ("sql_query"), JsonVal.str (strL ("SELECT 1")))]) ∧
    (run_sqlite_query c1Engine 0 c1Input).2.1 = [strL ("SELECT 1")] ∧
    (run_sqlite_query c1Engine 0 c1Input).1.error = none :=
  ⟨rfl, rfl, rfl⟩

/-- Query spec carrying a truthy `"error"` and no `"sql_query"`. -/
def c1wInput : List Char :=
  strL ("\x7b\"error\": \"X\"\x7d")

/-- C1 witness: the amended theorem applied at a concrete errored spec. -/
theorem run_sqlite_query_error_marker_witness :
    ∃ e, run_sqlite_query c1Engine 0 c1wInput = (⟨some e, []⟩, [], 0) ∧ e ≠ [] :=
  run_sqlite_query_error_marker c1Engine 0 c1wInput
    [(strL ("error"), JsonVal.str (strL ("X")))] rfl (Or.inl rfl)

/-- C2 (amended): `ask` never raises past its boundary; the first failing
step short-circuits the remaining steps and yields a single error string
made of a fixed prefix and the exception's own description.  (Per the C2
counterexample, the string does not identify which step failed.) -/
theorem ask_short_circuits (sess : PipelineSession) (q : List Char) :
    (∀ e, sess.callNer q = Except.error e →
      ask (some sess) q = (criticalMsg e, [StepCall.nerStep q])) ∧
    (∀ n e, sess.callNer q = Except.ok n →
      sess.callCreateSql q n = Except.error e →
      ask (some sess) q =
        (criticalMsg e, [StepCall.nerStep q, StepCall.createSqlStep q n])) ∧
    (∀ n sq e, sess.callNer q = Except.ok n →
      sess.callCreateSql q n = Except.ok sq →
      sess.callRunQuery sq = Except.error e →
      ask (some sess) q =
        (criticalMsg e, [StepCall.nerStep q, StepCall.createSqlStep q n,
          StepCall.runQueryStep sq])) ∧
    (∀ n sq d e, sess.callNer q = Except.ok n →
      sess.callCreateSql q n = Except.ok sq →
      sess.callRunQuery sq = Except.ok d →
      sess.callFinalAnswer q d = Except.error e →
      ask (some sess) q =
        (criticalMsg e, [StepCall.nerStep q, StepCall.createSqlStep q n,
          StepCall.runQueryStep sq, StepCall.finalAnswerStep q d])) ∧
    (∀ n sq d a, sess.callNer q = Except.ok n →
      sess.callCreateSql q n = Except.ok sq →
      sess.callRunQuery sq = Except.ok d →
      sess.callFinalAnswer q d = Except.ok a →
      ask (some sess) q =
        (a, [StepCall.nerStep q, StepCall.createSqlStep q n,
          StepCall.runQueryStep sq, StepCall.finalAnswerStep q d])) := by
  refine ⟨?_, ?_, ?_, ?_, ?_⟩
  · intro e h1
    simp [ask, h1]
  · intro n e h1 h2
    simp [ask, h1, h2]
  · intro n sq e h1 h2 h3
    simp [ask, h1, h2, h3]
  · intro n sq d e h1 h2 h3 h4
    simp [ask, h1, h2, h3, h4]
  · intro n sq d a h1 h2 h3 h4
    simp [ask, h1, h2, h3, h4]

/-- Session whose entity-extraction call raises. -/
def sesA : PipelineSession :=
  ⟨fun _ => Except.error (strL ("boom")), fun _ _ => Except.ok (strL ("s")),
    fun _ => Except.ok JsonVal.null, fun _ _ => Except.ok (strL ("a"))⟩

/-- Session whose query-execution call raises with the same exception
text as `sesA`'s entity-extraction call. -/
def sesB : PipelineSession :=
  ⟨fun _ => Except.ok JsonVal.null, fun _ _ => Except.ok (strL ("s")),
    fun _ => Except.error (strL ("boom")), fun _ _ => Except.ok (strL ("a"))⟩

/-- C2 counterexample: a run failing at step 1 and a run failing at step 3
return the identical final string (the invocation logs prove the failing
steps differ), so the returned error string does not describe which step
failed. -/
theorem ask_error_string_not_step_specific_cex :
    (ask (some sesA) (strL ("Q"))).1 = (ask (some sesB) (strL ("Q"))).1 ∧
    (ask (some sesA) (strL ("Q"))).2 = [StepCall.nerStep (strL ("Q"))] ∧
    (ask (some sesB) (strL ("Q"))).2 =
      [StepCall.nerStep (strL ("Q")), StepCall.createSqlStep (strL ("Q")) JsonVal.null,
        StepCall.runQueryStep (strL ("s"))] :=
  ⟨rfl, rfl, rfl⟩

/-- C2 witness: the amended theorem applied to a step-1 failure. -/
theorem ask_short_circuits_witness :
    ask (some sesA) (strL ("Q")) =
      (criticalMsg (strL ("boom")), [StepCall.nerStep (strL ("Q"))]) :=
  (ask_short_circuits sesA (strL ("Q"))).1 (strL ("boom")) rfl

/-- C3: when the input has a first left brace at index `i` and a last right
brace at index `j ≥ i`, the consumer extracts exactly the substring from
`i` through `j`, parses exactly that substring, and behaves as if the
surrounding non-JSON content were absent. -/
theorem run_sqlite_query_locates_braced_json {σ : Type} (engine : SqlEngine σ)
    (store : σ) (s : List Char) (i j : Nat)
    (h1 : firstIdxOf s '\x7b' = some i) (h2 : lastIdxOf s '\x7d' = some j)
    (hij : i ≤ j) :
    extractBraced s = (s.take (j + 1)).drop i ∧
    run_sqlite_query engine store s =
      executeParsedSpec engine store (jsonLoads ((s.take (j + 1)).drop i)) ∧
    run_sqlite_query engine store s = run_sqlite_query engine store (extractBraced s) := by
  have hex := extractBraced_eq h1 h2
  have hi := firstIdxOf_bound h1
  have hj := lastIdxOf_bound h2
  have hlen : ((s.take (j + 1)).drop i).length = j + 1 - i := by
    rw [List.length_drop, List.length_take, Nat.min_eq_left (by omega)]
  have hh : ((s.take (j + 1)).drop i).get? 0 = some '\x7b' := by
    rw [List.get?_drop]
    show (s.take (j + 1)).get? i = some '\x7b'
    rw [List.get?_take (by omega : i < j + 1)]
    exact hi.2
  have hl : ((s.take (j + 1)).drop i).get?
      (((s.take (j + 1)).drop i).length - 1) = some '\x7d' := by
    rw [hlen]
    have hidx : j + 1 - i - 1 = j - i := by omega
    rw [hidx, List.get?_drop]
    have hadd : i + (j - i) = j := by omega
    rw [hadd, List.get?_take (by omega : j < j + 1)]
    exact hj.2
  have hself : extractBraced (extractBraced s) = extractBraced s := by
    rw [hex]
    exact extractBraced_self hh hl
  refine ⟨hex, ?_, ?_⟩
  · unfold run_sqlite_query
    rw [hex]
  · unfold run_sqlite_query
    rw [hself]

/-- Engine used by the C3 witness. -/
def c3Engine : SqlEngine Nat :=
  fun store _q => Except.ok (⟨[strL ("c")], [[JsonVal.num 1]]⟩, store)

/-- Text with one brace-enclosed JSON object surrounded by stray content. -/
def c3Input : List Char :=
  strL ("a\x7b\x7db")

/-- C3 witness: the theorem applied at a concrete brace-enclosed input. -/
theorem run_sqlite_query_locates_braced_json_witness :
    extractBraced c3Input = (c3Input.take 3).drop 1 ∧
    run_sqlite_query c3Engine 0 c3Input =
      executeParsedSpec c3Engine 0 (jsonLoads ((c3Input.take 3).drop 1)) ∧
    run_sqlite_query c3Engine 0 c3Input =
      run_sqlite_query c3Engine 0 (extractBraced c3Input) :=
  run_sqlite_query_locates_braced_json c3Engine 0 c3Input 1 2
    (by decide) (by decide) (by decide)

/-- C4: on an extracted JSON object with a `"sql_query"` string, no
`"error"` key, and a successful execution, `run_sqlite_query` passes
exactly that one statement to the cursor and returns the fetched rows as
column-name → value dicts with no `"error"` entry, threading the engine's
successor store state. -/
theorem run_sqlite_query_success {σ : Type} (engine : SqlEngine σ) (store : σ)
    (s : List Char) (kvs : List (List Char × JsonVal)) (q : List Char)
    (res : ExecResult) (store2 : σ)
    (hparse : jsonLoads (extractBraced s) = some (JsonVal.obj kvs))
    (herr : pyLookup kvs (strL ("error")) = none)
    (hsql : pyLookup kvs (strL ("sql_query")) = some (JsonVal.str q))
    (hq : q ≠ [])
    (hexec : engine store q = Except.ok (res, store2)) :
    run_sqlite_query engine store s =
      (⟨none, res.rows.map (fun row => pyZipDict res.columns row)⟩, [q], store2) := by
  unfold run_sqlite_query
  rw [hparse, executeParsedSpec_obj, herr, hsql]
  have hqt : pyTruthy (some (JsonVal.str q)) = true := by
    cases q with
    | nil => exact absurd rfl hq
    | cons a t => rfl
  rw [if_neg (by decide), if_neg (by rw [hqt]; decide)]
  simp [hexec]

/-- Engine used by the C4 witness. -/
def c4Engine : SqlEngine Nat :=
  fun store _q => Except.ok (⟨[strL ("c")], [[JsonVal.num 7]]⟩, store)

/-- A well-formed query spec. -/
def c4Input : List Char :=
  strL ("\x7b\"sql_query\": \"SELECT 1\"\x7d")

/-- C4 witness: the theorem applied at a concrete successful execution. -/
theorem run_sqlite_query_success_witness :
    run_sqlite_query c4Engine 0 c4Input =
      (⟨none, [[(strL ("c"), JsonVal.num 7)]]⟩, [strL ("SELECT 1")], 0) :=
  run_sqlite_query_success c4Engine 0 c4Input
    [(strL ("sql_query"), JsonVal.str (strL ("SELECT 1")))] (strL ("SELECT 1"))
    ⟨[strL ("c")], [[JsonVal.num 7]]⟩ 0 rfl rfl rfl (by decide) rfl

/-- C5: `run_sqlite_query` is total over its input string (the embedding is
a total function) and structured: for every engine, store and input, the
returned dict either carries no `"error"` entry, or carries a non-empty
`"error"` string together with `"data"` equal to the empty list. -/
theorem run_sqlite_query_total_structured {σ : Type} (engine : SqlEngine σ)
    (store : σ) (s : List Char) :
    (run_sqlite_query engine store s).1.error = none ∨
      ∃ e, (run_sqlite_query engine store s).1.error = some e ∧ e ≠ [] ∧
        (run_sqlite_query engine store s).1.data = [] :=
  executeParsedSpec_structured engine store (jsonLoads (extractBraced s))

/-- C6 (amended): `create_sql` never inspects the entity mapping for an
error marker: when the LLM call succeeds its completion text is returned
verbatim (so the result contains an error marker only if the LLM emitted
one), and only when the LLM call itself fails does `create_sql` itself
return a serialized JSON object carrying an `"error"` key. -/
theorem create_sql_forwards_llm (llm : Llm) (q : List Char)
    (d : List (List Char × JsonVal)) (x : JsonVal)
    (hd : pyLookup d (strL ("error")) = some x) :
    (∃ t, llm (mkCreateSqlPrompt q (jsonDumps (JsonVal.obj d))) = Except.ok t ∧
      create_sql llm q d = t) ∨
    (∃ e, llm (mkCreateSqlPrompt q (jsonDumps (JsonVal.obj d))) = Except.error e ∧
      create_sql llm q d =
        jsonDumps (JsonVal.obj [(strL ("error"),
          JsonVal.str (strL ("LLM Error in create_sql: ") ++ e))])) := by
  rcases h : llm (mkCreateSqlPrompt q (jsonDumps (JsonVal.obj d))) with e | t
  · refine Or.inr ⟨e, rfl, ?_⟩
    simp [create_sql, h]
  · refine Or.inl ⟨t, rfl, ?_⟩
    simp [create_sql, h]

/-- Entity mapping carrying an error marker, as produced by a failed
extraction step. -/
def c6Ner : List (List Char × JsonVal) :=
  [(strL ("error"), JsonVal.str (strL ("X")))]

/-- A completion fabricating a query despite the errored entities. -/
def c6FabText : List Char :=
  strL ("\x7b\"sql_query\": \"SELECT 1\"\x7d")

/-- An LLM that answers every prompt with `c6FabText`. -/
def c6FabLlm : Llm :=
  fun _ => Except.ok c6FabText

/-- C6 counterexample: invoked on an entity mapping `{error: "X"}`,
`create_sql` returns the LLM completion verbatim; with an LLM that emits a
query, the result parses to an object with a fabricated `"sql_query"` and
no `"error"` key at all, contradicting the claim that the result must
contain an error marker. -/
theorem create_sql_no_error_marker_cex :
    pyLookup c6Ner (strL ("error")) = some (JsonVal.str (strL ("X"))) ∧
    create_sql c6FabLlm (strL ("Q")) c6Ner = c6FabText ∧
    jsonLoads (extractBraced c6FabText) =
      some (JsonVal.obj [(strL ("sql_query"), JsonVal.str (strL ("SELECT 1")))]) ∧
    pyLookup [(strL ("sql_query"), JsonVal.str (strL ("SELECT 1")))]
      (strL ("error")) = none :=
  ⟨rfl, rfl, rfl, rfl⟩

/-- An LLM whose call fails. -/
def c6DownLlm : Llm :=
  fun _ => Except.error (strL ("down"))

/-- C6 witness: the amended theorem applied to a failing LLM call. -/
theorem create_sql_forwards_llm_witness :
    (∃ t, c6DownLlm (mkCreateSqlPrompt (strL ("Q")) (jsonDumps (JsonVal.obj c6Ner))) =
        Except.ok t ∧ create_sql c6DownLlm (strL ("Q")) c6Ner = t) ∨
    (∃ e, c6DownLlm (mkCreateSqlPrompt (strL ("Q")) (jsonDumps (JsonVal.obj c6Ner))) =
        Except.error e ∧
      create_sql c6DownLlm (strL ("Q")) c6Ner =
        jsonDumps (JsonVal.obj [(strL ("error"),
          JsonVal.str (strL ("LLM Error in create_sql: ") ++ e))])) :=
  create_sql_forwards_llm c6DownLlm (strL ("Q")) c6Ner
    (JsonVal.str (strL ("X"))) rfl

/-- C7: every tool invocation issued by one `ask` run that carries a
`question` argument carries exactly the original question string. -/
theorem ask_preserves_question (sess : Option PipelineSession) (q : List Char)
    (c : StepCall) (hc : c ∈ (ask sess q).2) :
    questionOf c = none ∨ questionOf c = some q := by
  rcases sess with _ | s
  · simp [ask] at hc
  · rcases h1 : s.callNer q with e | n
    · simp [ask, h1] at hc
      subst hc
      exact Or.inr rfl
    · rcases h2 : s.callCreateSql q n with e | sq
      · simp [ask, h1, h2] at hc
        rcases hc with rfl | rfl
        · exact Or.inr rfl
        · exact Or.inr rfl
      · rcases h3 : s.callRunQuery sq with e | d
        · simp [ask, h1, h2, h3] at hc
          rcases hc with rfl | rfl | rfl
          · exact Or.inr rfl
          · exact Or.inr rfl
          · exact Or.inl rfl
        · rcases h4 : s.callFinalAnswer q d with e | a
          · simp [ask, h1, h2, h3, h4] at hc
            rcases hc with rfl | rfl | rfl | rfl
            · exact Or.inr rfl
            · exact Or.inr rfl
            · exact Or.inl rfl
            · exact Or.inr rfl
          · simp [ask, h1, h2, h3, h4] at hc
            rcases hc with rfl | rfl | rfl | rfl
            · exact Or.inr rfl
            · exact Or.inr rfl
            · exact Or.inl rfl
            · exact Or.inr rfl

/-- Session used by the C7 witness: all four calls succeed. -/
def c7Ses : PipelineSession :=
  ⟨fun _ => Except.ok JsonVal.null, fun _ _ => Except.ok (strL ("s")),
    fun _ => Except.ok JsonVal.null, fun _ _ => Except.ok (strL ("a"))⟩

/-- C7 witness: the theorem applied to the first invocation of a concrete
run. -/
theorem ask_preserves_question_witness :
    questionOf (StepCall.nerStep (strL ("Q"))) = none ∨
      questionOf (StepCall.nerStep (strL ("Q"))) = some (strL ("Q")) :=
  ask_preserves_question (some c7Ses) (strL ("Q"))
    (StepCall.nerStep (strL ("Q"))) (List.Mem.head _)

/-- C8: with the store state after the first call equal to the state before
it (a read-only query), a second `run_sqlite_query` with the same input
returns the identical result: the outcome is a function of the input text
and the store contents only. -/
theorem run_sqlite_query_idempotent {σ : Type} (engine : SqlEngine σ) (store : σ)
    (s : List Char) (h : (run_sqlite_query engine store s).2.2 = store) :
    run_sqlite_query engine ((run_sqlite_query engine store s).2.2) s =
      run_sqlite_query engine store s := by
  rw [h]

/-- Engine used by the C8 witness: store-preserving. -/
def c8Engine : SqlEngine Nat :=
  fun store _q => Except.ok (⟨[strL ("n")], [[JsonVal.num 3]]⟩, store)

/-- Query spec used by the C8 witness. -/
def c8Input : List Char :=
  strL ("\x7b\"sql_query\": \"SELECT 3\"\x7d")

/-- C8 witness: the theorem applied at a concrete read-only run. -/
theorem run_sqlite_query_idempotent_witness :
    run_sqlite_query c8Engine ((run_sqlite_query c8Engine 0 c8Input).2.2) c8Input =
      run_sqlite_query c8Engine 0 c8Input :=
  run_sqlite_query_idempotent c8Engine 0 c8Input rfl

/-- C9: a missing data-dictionary file makes
`get_data_dictionary_description` return the non-empty "no dictionary"
notice instead of raising, and the entity-extraction call then proceeds
exactly as it would with any dictionary text: a successful LLM round trip
with parseable output still yields the parsed entity mapping. -/
theorem dictionary_absence_degrades :
    get_data_dictionary_description DictRead.fileNotFound = dictNotFoundMsg ∧
    dictNotFoundMsg ≠ [] ∧
    (∀ (llm : Llm) (q t : List Char) (v : JsonVal),
      llm (mkNerPrompt dictNotFoundMsg q) = Except.ok t →
      jsonLoads (extractBraced t) = some v →
      ner_generator_dynamic DictRead.fileNotFound llm q = v) := by
  refine ⟨rfl, by decide, ?_⟩
  intro llm q t v h1 h2
  simp [ner_generator_dynamic, get_data_dictionary_description, h1, h2]

/-- An LLM answering with an empty JSON object. -/
def c9Llm : Llm :=
  fun _ => Except.ok (strL ("\x7b\x7d"))

/-- C9 witness: the theorem applied to a concrete extraction call with the
dictionary file absent. -/
theorem dictionary_absence_degrades_witness :
    ner_generator_dynamic DictRead.fileNotFound c9Llm (strL ("Q")) = JsonVal.obj [] :=
  dictionary_absence_degrades.2.2 c9Llm (strL ("Q")) (strL ("\x7b\x7d"))
    (JsonVal.obj []) rfl rfl

/-- C10: before a session is established, `ask` returns the fixed
not-connected error string and issues no tool invocation. -/
theorem ask_not_connected (q : List Char) :
    ask none q = (strL ("Error: Not connected to the server."), []) :=
  rfl

end SqlAgent
